import Mathlib

/-!
Verification of the symbol/identifier-resolution, date-normalization and
fact-extraction core of the `us-stock-data` repository.

The Lean definitions below are a shallow embedding of the Python sources:

* `financialdatapy/date.py`   — `_validate_date_format`, `date_to_timestamp`
* `financialdatapy/stock.py`  — `Stock._validate_country_code`,
                                `Stock._convert_symbol_to_code_in_krx`
* `scripts/financial.py`      — `search_cik`, `extract_numbers`, `get_latest`

Python runtime behaviour (exceptions, `None`, dict key errors) is made
explicit with `Option` / `Except`; machine-level details that the code
never exercises (floats, unicode beyond ASCII) are noted where relevant.
-/

set_option autoImplicit false

namespace StockData

/-- Core does not derive decidable equality for `Except`; the embeddings
below use it to evaluate results on concrete inputs. -/
instance {E A : Type} [DecidableEq E] [DecidableEq A] : DecidableEq (Except E A)
  | .ok a, .ok b =>
    if h : a = b then .isTrue (by rw [h]) else .isFalse (fun hc => h (Except.ok.inj hc))
  | .ok _, .error _ => .isFalse (fun hc => Except.noConfusion hc)
  | .error _, .ok _ => .isFalse (fun hc => Except.noConfusion hc)
  | .error e, .error f =>
    if h : e = f then .isTrue (by rw [h]) else .isFalse (fun hc => h (Except.error.inj hc))

/-! ## Calendar dates

`datetime.strptime` produces a `datetime.datetime`; the code only ever uses
the calendar-date part (the time of day is always midnight), so a date is a
`year/month/day` triple in the proleptic Gregorian calendar. -/

/-- A calendar date, as produced by `datetime.strptime` in `date.py`
(the parsed time of day is always midnight, so it is omitted). -/
structure Date where
  year : Nat
  month : Nat
  day : Nat
deriving DecidableEq, Repr

/-- Gregorian leap-year rule, as used by Python's `datetime`. -/
def isLeap (y : Nat) : Bool :=
  y % 4 == 0 && (y % 100 != 0 || y % 400 == 0)

/-- Number of days of month `m` in year `y` (`datetime._days_in_month`).
Months outside `1..12` never reach this function. -/
def daysInMonth (y m : Nat) : Nat :=
  match m with
  | 1 => 31
  | 2 => if isLeap y then 29 else 28
  | 3 => 31
  | 4 => 30
  | 5 => 31
  | 6 => 30
  | 7 => 31
  | 8 => 31
  | 9 => 30
  | 10 => 31
  | 11 => 30
  | 12 => 31
  | _ => 0

/-- Days in year `y` strictly before month `m`, ignoring the leap day
(`datetime._DAYS_BEFORE_MONTH`). -/
def daysBeforeMonthTable (m : Nat) : Nat :=
  match m with
  | 1 => 0
  | 2 => 31
  | 3 => 59
  | 4 => 90
  | 5 => 120
  | 6 => 151
  | 7 => 181
  | 8 => 212
  | 9 => 243
  | 10 => 273
  | 11 => 304
  | 12 => 334
  | _ => 0

/-- Days in year `y` strictly before month `m` (`datetime._days_before_month`). -/
def daysBeforeMonth (y m : Nat) : Nat :=
  daysBeforeMonthTable m + (if 2 < m && isLeap y then 1 else 0)

/-- Proleptic-Gregorian ordinal of a date, with `0001-01-01` having
ordinal `1` (`datetime.date.toordinal`). -/
def toOrdinal (d : Date) : Nat :=
  365 * (d.year - 1) + (d.year - 1) / 4 - (d.year - 1) / 100 + (d.year - 1) / 400
    + daysBeforeMonth d.year d.month + d.day

/-! ## `datetime.strptime` for the two formats used by `date.py`

CPython's `_strptime` compiles `'%Y-%m-%d'` to the regular expression
`(?P<Y>\d\d\d\d)\-(?P<m>1[0-2]|0[1-9]|[1-9])\-(?P<d>3[01]|[12]\d|0[1-9]|[1-9])`
and requires the whole input to be consumed ("unconverted data remains"
otherwise); `'%y-%m-%d'` is the same with `(?P<y>\d\d)` for the year, the
two-digit year being pivoted at 68 (`00..68 ↦ 2000..2068`,
`69..99 ↦ 1969..1999`).  A successful regex match is then fed to the
`datetime` constructor, which rejects `year = 0` and a day that exceeds the
month's length.  Since the separators are literal `'-'` and every field is
made of digits, a string matches the format exactly when it splits on `'-'`
into three fields of the right shapes, which is how the parsers below are
phrased. -/

/-- Numeric value of a list of decimal digit characters. -/
def digitsVal (l : List Char) : Nat :=
  l.foldl (fun a c => a * 10 + (c.toNat - 48)) 0

/-- Split a character list on a separator, keeping empty fields, exactly as
the literal separators of the `strptime` format cut the input. -/
def splitOn (sep : Char) : List Char → List (List Char)
  | [] => [[]]
  | c :: rest =>
    if c == sep then [] :: splitOn sep rest
    else
      match splitOn sep rest with
      | [] => [[c]]
      | g :: gs => (c :: g) :: gs

/-- A month or day field of `strptime`: one or two decimal digits whose
value lies in `lo..hi` (this is exactly the language of the field regexes
`1[0-2]|0[1-9]|[1-9]` and `3[01]|[12]\d|0[1-9]|[1-9]`). -/
def fieldOk (l : List Char) (lo hi : Nat) : Bool :=
  l.all Char.isDigit && (l.length == 1 || l.length == 2)
    && decide (lo ≤ digitsVal l) && decide (digitsVal l ≤ hi)

/-- Field stage of `datetime.strptime(s, '%Y-%m-%d')` on the three
dash-separated fields: a four-digit year, a 1-2 digit month in `1..12`, a
1-2 digit day in `1..31`, then the `datetime` constructor's checks
(`year ≥ 1`, day fits the month). -/
def parseFieldsYmd4 (yl ml dl : List Char) : Option Date :=
  if yl.length == 4 && yl.all Char.isDigit && fieldOk ml 1 12 && fieldOk dl 1 31 then
    let y := digitsVal yl
    let m := digitsVal ml
    let d := digitsVal dl
    if decide (1 ≤ y) && decide (d ≤ daysInMonth y m) then some ⟨y, m, d⟩ else none
  else none

/-- Field stage of `datetime.strptime(s, '%y-%m-%d')`: a two-digit year
pivoted at 68 (`00..68 ↦ 2000..2068`, `69..99 ↦ 1969..1999`), then the
same month/day checks.  The resulting year is always in `1969..2068`, so
the constructor's year-range check cannot fail. -/
def parseFieldsYmd2 (yl ml dl : List Char) : Option Date :=
  if yl.length == 2 && yl.all Char.isDigit && fieldOk ml 1 12 && fieldOk dl 1 31 then
    let yy := digitsVal yl
    let y := if yy ≤ 68 then 2000 + yy else 1900 + yy
    let m := digitsVal ml
    let d := digitsVal dl
    if decide (d ≤ daysInMonth y m) then some ⟨y, m, d⟩ else none
  else none

/-- `datetime.strptime(s, '%Y-%m-%d')`, with `none` for `ValueError`. -/
def parse_Ymd (s : String) : Option Date :=
  match splitOn '-' s.toList with
  | [yl, ml, dl] => parseFieldsYmd4 yl ml dl
  | _ => none

/-- `datetime.strptime(s, '%y-%m-%d')`, with `none` for `ValueError`. -/
def parse_ymd (s : String) : Option Date :=
  match splitOn '-' s.toList with
  | [yl, ml, dl] => parseFieldsYmd2 yl ml dl
  | _ => none

/-! ## `date.py` -/

/-- The errors `date.py` can surface: its own `IntegerDateInputError`, and
the `ValueError` that the second `strptime` call lets propagate. -/
inductive DateError where
  | integerDateInputError : DateError
  | valueError : DateError
deriving DecidableEq, Repr

/-- The runtime values the dynamically typed `period` parameter takes in
the repository: an `int`, a `str`, or `None` (the default). -/
inductive DateInput where
  | ofInt : Int → DateInput
  | ofStr : String → DateInput
  | absent : DateInput
deriving DecidableEq, Repr

/-- The `try/except` of `_validate_date_format`: `strptime` with
`'%Y-%m-%d'`, on `ValueError` retry with `'%y-%m-%d'`, whose `ValueError`
(if any) propagates. -/
def parseDateString (s : String) : Except DateError Date :=
  match parse_Ymd s with
  | some d => .ok d
  | none =>
    match parse_ymd s with
    | some d => .ok d
    | none => .error .valueError

/-- Left-pad a string with `'0'` to width `w` (no-op when already longer). -/
def padZeros (w : Nat) (s : String) : String :=
  String.mk (List.replicate (w - s.length) '0') ++ s

/-- `d.strftime('%Y-%m-%d')` for the `datetime.today()` default:
zero-padded four-digit year, two-digit month and day.  (For years below
1000 glibc's `%Y` does not pad; `today` always has a four-digit year.) -/
def formatIso (d : Date) : String :=
  padZeros 4 (Nat.repr d.year) ++ "-" ++ padZeros 2 (Nat.repr d.month)
    ++ "-" ++ padZeros 2 (Nat.repr d.day)

/-- `date._validate_date_format(period)`.  `today` stands for the value of
`datetime.today()` at the call.  An `int` input raises
`IntegerDateInputError` before anything else; `None` is replaced by
today's date formatted as `'%Y-%m-%d'`; then the two-format parse runs. -/
def validate_date_format (period : DateInput) (today : Date) : Except DateError Date :=
  match period with
  | .ofInt _ => .error .integerDateInputError
  | .absent => parseDateString (formatIso today)
  | .ofStr s => parseDateString s

/-- `date.date_to_timestamp(period)`.  `pytz.timezone('Etc/GMT+4')` is the
fixed offset UTC−04:00 (POSIX sign convention), so localizing midnight of
the parsed date there and taking `datetime.timestamp` gives
`days-since-1970-01-01 · 86400 + 4 · 3600` (ordinal 719163 is 1970-01-01). -/
def date_to_timestamp (period : DateInput) (today : Date) : Except DateError Int :=
  (validate_date_format period today).map
    (fun d => ((toOrdinal d : Int) - 719163) * 86400 + 4 * 3600)

/-- A field triple accepted by the two-digit-year format is never accepted
by the four-digit-year format: its year field has exactly two digits. -/
theorem parseFieldsYmd4_eq_none_of_parseFieldsYmd2 (yl ml dl : List Char) (d : Date)
    (h : parseFieldsYmd2 yl ml dl = some d) : parseFieldsYmd4 yl ml dl = none := by
  unfold parseFieldsYmd2 at h
  unfold parseFieldsYmd4
  cases hb : (yl.length == 2) with
  | false => rw [hb] at h; simp at h
  | true =>
    have h2 : yl.length = 2 := beq_iff_eq.mp hb
    simp [h2]

/-- A string accepted by the two-digit-year format is never accepted by the
four-digit-year format. -/
theorem parse_Ymd_eq_none_of_parse_ymd (s : String) (d : Date)
    (h : parse_ymd s = some d) : parse_Ymd s = none := by
  unfold parse_ymd at h
  unfold parse_Ymd
  cases hs : splitOn '-' s.toList with
  | nil => rfl
  | cons yl t =>
    cases t with
    | nil => rfl
    | cons ml t2 =>
      cases t2 with
      | nil => rfl
      | cons dl t3 =>
        cases t3 with
        | cons e t4 => rfl
        | nil =>
          rw [hs] at h
          have h' : parseFieldsYmd2 yl ml dl = some d := h
          exact parseFieldsYmd4_eq_none_of_parseFieldsYmd2 yl ml dl d h'

/-- Claim C1: two valid date strings, one in `YYYY-MM-DD` form and one in
`YY-MM-DD` form, that parse to the same calendar date are mapped by
`date_to_timestamp` to the same epoch value (parsing tries `%Y-%m-%d`
first and falls back to `%y-%m-%d`). -/
theorem date_to_timestamp_same_for_both_formats (s1 s2 : String) (d t : Date)
    (h1 : parse_Ymd s1 = some d) (h2 : parse_ymd s2 = some d) :
    date_to_timestamp (.ofStr s1) t = date_to_timestamp (.ofStr s2) t := by
  have hn := parse_Ymd_eq_none_of_parse_ymd s2 d h2
  simp [date_to_timestamp, validate_date_format, parseDateString, h1, h2, hn]

/-- Witness for claim C1 at the spec's example pair `'2021-8-3'` /
`'21-8-3'`, both denoting 2021-08-03. -/
theorem date_to_timestamp_same_for_both_formats_witness :
    parse_Ymd "2021-8-3" = some ⟨2021, 8, 3⟩ ∧
    parse_ymd "21-8-3" = some ⟨2021, 8, 3⟩ ∧
    date_to_timestamp (.ofStr "2021-8-3") ⟨2022, 5, 17⟩
      = date_to_timestamp (.ofStr "21-8-3") ⟨2022, 5, 17⟩ :=
  ⟨by decide, by decide,
    date_to_timestamp_same_for_both_formats "2021-8-3" "21-8-3" ⟨2021, 8, 3⟩ ⟨2022, 5, 17⟩
      (by decide) (by decide)⟩

/-- Whatever string reaches the parsing stage, the result is a parsed date
or the propagated `ValueError`, never `IntegerDateInputError`. -/
theorem parseDateString_ne_integer_error (s : String) :
    parseDateString s ≠ .error .integerDateInputError := by
  unfold parseDateString
  cases parse_Ymd s with
  | some d => simp
  | none => cases parse_ymd s with
    | some d => simp
    | none => simp

/-- Claim C6: an integer date input always fails with
`IntegerDateInputError`, whatever its value; a string or absent input
never produces that error. -/
theorem integer_date_input_always_rejected (n : Int) (s : String) (t : Date) :
    validate_date_format (.ofInt n) t = .error .integerDateInputError ∧
    validate_date_format (.ofStr s) t ≠ .error .integerDateInputError ∧
    validate_date_format .absent t ≠ .error .integerDateInputError :=
  ⟨rfl, parseDateString_ne_integer_error s, parseDateString_ne_integer_error (formatIso t)⟩

/-- Claim C7 counterexample: on `'2021-8-10'` the code returns epoch value
`1628568000` (midnight UTC−4 of 2021-08-10), not the `1628654400` the
claim states — that value is one day later and is produced by the
out-of-scope price-query caller, not by `date_to_timestamp`. -/
theorem date_to_timestamp_aug10_counterexample :
    date_to_timestamp (.ofStr "2021-8-10") ⟨2022, 5, 17⟩ = .ok 1628568000 ∧
    date_to_timestamp (.ofStr "2021-8-10") ⟨2022, 5, 17⟩ ≠ .ok 1628654400 := by decide

/-- Claim C7 as amended: `date_to_timestamp` localizes the parsed date to
the fixed UTC−4 offset, so `'2021-8-3' ↦ 1627963200`,
`'2021-8-10' ↦ 1628568000` and `'1900-01-01' ↦ -2208974400`, for any
invocation day. -/
theorem date_to_timestamp_fixed_reference_values (t : Date) :
    date_to_timestamp (.ofStr "2021-8-3") t = .ok 1627963200 ∧
    date_to_timestamp (.ofStr "2021-8-10") t = .ok 1628568000 ∧
    date_to_timestamp (.ofStr "1900-01-01") t = .ok (-2208974400) := by
  refine ⟨?_, ?_, ?_⟩ <;> rfl

example : parse_Ymd "2021-8-3" = some ⟨2021, 8, 3⟩ := by decide
example : parse_ymd "21-8-3" = some ⟨2021, 8, 3⟩ := by decide
example : parse_Ymd "21-8-3" = none := by decide
example : parse_ymd "2021-8-3" = none := by decide
example : parse_Ymd "2021-02-29" = none := by decide
example : parse_Ymd "2020-02-29" = some ⟨2020, 2, 29⟩ := by decide
example :
    date_to_timestamp (.ofStr "2021-8-3") ⟨2022, 1, 1⟩ = .ok 1627963200 := by decide
example :
    date_to_timestamp (.ofStr "2021-8-10") ⟨2022, 1, 1⟩ = .ok 1628568000 := by decide
example :
    date_to_timestamp (.ofStr "1900-01-01") ⟨2022, 1, 1⟩ = .ok (-2208974400) := by decide

/-! ## `scripts/financial.py`

`search_cik` looks a ticker up in the CIK table fetched by `get_cik` (a
pandas frame with columns `cik`, `name`, `ticker`); `extract_numbers`
scans the fact list of one taxonomy tag of an SEC company-facts payload;
`get_latest` is `data[-1]`.  Python exceptions made explicit below:
`data.values[0]` on an empty subset and `data[-1]` on an empty list raise
`IndexError`, `facts[taxonomy]` on a missing key raises `KeyError`. -/

/-- The exceptions the script's helpers can raise. -/
inductive ScriptError where
  | keyError : ScriptError
  | indexError : ScriptError
deriving DecidableEq, Repr

/-- One row of the CIK table built by `get_cik` from
`company_tickers_exchange.json`: numeric `cik`, company `name`, `ticker`. -/
structure CikRow where
  cik : Nat
  name : String
  ticker : String
deriving DecidableEq, Repr

/-- Python `str.upper()` on the ASCII strings the script handles. -/
def str_upper (s : String) : String :=
  String.mk (s.toList.map Char.toUpper)

/-- The zero-padding step of `search_cik`:
`('0' * (10 - len(str(data)))) + str(data)` — Python's `'0' * k` is empty
for `k ≤ 0`, exactly like the truncated `Nat` subtraction of `padZeros`. -/
def pad_cik (n : Nat) : String :=
  padZeros 10 (Nat.repr n)

/-- `search_cik(ticker)`: uppercase the ticker, take the `cik` of the
first row whose `ticker` column matches (`data.values[0]`, an
`IndexError` — here `none` — when no row matches), zero-pad to 10. -/
def search_cik (cik_list : List CikRow) (ticker : String) : Option String :=
  match cik_list.find? (fun r => r.ticker == str_upper ticker) with
  | some r => some (pad_cik r.cik)
  | none => none

/-- One entry of a payload's fact list.  The script reads only the
optional `'frame'` marker and the `'val'` number; the `'end'` date that
SEC facts also carry is kept to show the extraction never consults it. -/
structure Fact where
  endDate : String
  val : Int
  frame : Option String
deriving DecidableEq, Repr

/-- Tail of the regex `CY\d*$` after the literal `CY`: zero or more
digits up to the end of the string (Python's `$` also accepts a single
trailing newline). -/
def cy_tail : List Char → Bool
  | [] => true
  | c :: rest => (c == '\n' && rest.isEmpty) || (c.isDigit && cy_tail rest)

/-- `re.match('CY\d*$', s)` as a Boolean: the anchored-at-start match of
literal `C`, literal `Y`, then `cy_tail`. -/
def matches_cy (s : String) : Bool :=
  match s.toList with
  | c1 :: c2 :: rest => c1 == 'C' && c2 == 'Y' && cy_tail rest
  | _ => false

/-- Loop body of `extract_numbers`: `if 'frame' in i` and the frame
matches `CY\d*$`, append `i['val']` to the accumulator. -/
def extract_step (numbers : List Int) (i : Fact) : List Int :=
  match i.frame with
  | some f => if matches_cy f then numbers ++ [i.val] else numbers
  | none => numbers

/-- The `for i in facts[taxonomy]` loop of `extract_numbers`, starting
from `numbers = []`. -/
def extract_from_list (l : List Fact) : List Int :=
  l.foldl extract_step []

/-- `extract_numbers(facts, taxonomy)`: the dict subscript
`facts[taxonomy]` (a `KeyError` when the tag is absent), then the
filtering loop. -/
def extract_numbers (facts : List (String × List Fact)) (taxonomy : String) :
    Except ScriptError (List Int) :=
  match facts.find? (fun p => p.1 == taxonomy) with
  | some p => .ok (extract_from_list p.2)
  | none => .error .keyError

/-- `get_latest(data)` is `data[-1]`: the last element, an `IndexError`
on an empty list. -/
def get_latest (data : List Int) : Except ScriptError Int :=
  match data.getLast? with
  | some v => .ok v
  | none => .error .indexError

/-- The inclusion test the loop applies to one fact: a `'frame'` key is
present and its value matches `CY\d*$`. -/
def included (i : Fact) : Bool :=
  match i.frame with
  | some f => matches_cy f
  | none => false

/-- The frame pattern as the SPEC words it — "`CY` followed by digits,
optionally a quarter suffix" — formalised from the spec's words only, to
compare the claimed pattern with the code's regex `CY\d*$`. -/
def spec_frame_pattern (s : String) : Bool :=
  match s.toList with
  | c1 :: c2 :: rest =>
    c1 == 'C' && c2 == 'Y' &&
      (!(rest.takeWhile Char.isDigit).isEmpty &&
        ((rest.dropWhile Char.isDigit).isEmpty ||
          (match rest.dropWhile Char.isDigit with
           | ['Q', q] => q.isDigit
           | _ => false)))
  | _ => false

example : matches_cy "CY2021" = true := by decide
example : matches_cy "CY" = true := by decide
example : matches_cy "CY2021Q1" = false := by decide
example : spec_frame_pattern "CY2021Q1" = true := by decide
example : extract_from_list [⟨"2021-12-31", 7, some "CY2021"⟩, ⟨"2021-03-31", 8, some "CY2021Q1"⟩, ⟨"2020-12-31", 9, none⟩] = [7] := by decide
example : search_cik [⟨320193, "Apple Inc.", "AAPL"⟩] "AAPL" = some "0000320193" := by decide

/-- The extraction loop, run from any accumulator, appends exactly the
values of the facts that pass the frame test, in payload order. -/
theorem foldl_extract_step (l : List Fact) :
    ∀ acc : List Int, l.foldl extract_step acc = acc ++ (l.filter included).map Fact.val := by
  induction l with
  | nil => intro acc; simp
  | cons i rest ih =>
    intro acc
    rw [List.foldl_cons, ih (extract_step acc i)]
    cases hf : i.frame with
    | none => simp [extract_step, included, hf]
    | some f =>
      cases hm : matches_cy f with
      | false => simp [extract_step, included, hf, hm]
      | true => simp [extract_step, included, hf, hm]

/-- `extract_numbers`'s loop equals filtering by the frame test and
projecting the values, in payload order. -/
theorem extract_from_list_eq_filter (l : List Fact) :
    extract_from_list l = (l.filter included).map Fact.val := by
  simpa using foldl_extract_step l []

/-- Claim C2: for every id of at most ten decimal digits the CIK is the
id's decimal representation left-padded with zeros to exactly ten
characters, and looking ticker `'AAPL'` up in a table holding the row
`{cik: 320193, name: 'Apple Inc.', ticker: 'AAPL'}` yields `'0000320193'`. -/
theorem search_cik_pads_to_ten_digits (n : Nat) (h : n ≤ 9999999999) :
    (pad_cik n).length = 10 ∧
    search_cik [⟨320193, "Apple Inc.", "AAPL"⟩] "AAPL" = some "0000320193" := by
  constructor
  · have hpow : (10 : Nat) ^ 10 = 10000000000 := by norm_num
    have hlen : (Nat.repr n).length ≤ 10 := Nat.repr_length n 10 (by norm_num) (by omega)
    simp only [pad_cik, padZeros, String.length_append]
    rw [show (String.mk (List.replicate (10 - (Nat.repr n).length) '0')).length
          = 10 - (Nat.repr n).length from by
        rw [show (String.mk (List.replicate (10 - (Nat.repr n).length) '0')).length
            = (List.replicate (10 - (Nat.repr n).length) '0').length from rfl,
          List.length_replicate]]
    omega
  · decide

/-- Witness for claim C2 at the spec's id `320193`. -/
theorem search_cik_pads_to_ten_digits_witness :
    320193 ≤ 9999999999 ∧ (pad_cik 320193).length = 10 ∧
    search_cik [⟨320193, "Apple Inc.", "AAPL"⟩] "AAPL" = some "0000320193" :=
  ⟨by norm_num, (search_cik_pads_to_ten_digits 320193 (by norm_num)).1,
    (search_cik_pads_to_ten_digits 320193 (by norm_num)).2⟩

/-- Claim C4 counterexample: on an empty sequence `get_latest` does not
return a missing-value marker — `data[-1]` raises `IndexError`. -/
theorem get_latest_empty_raises :
    get_latest [] = .error .indexError := rfl

/-- Claim C4 as amended: `get_latest` returns the positionally last
element of a non-empty sequence, and raises `IndexError` on an empty one. -/
theorem get_latest_last_or_index_error (l : List Int) (x : Int) :
    get_latest (l ++ [x]) = .ok x ∧
    get_latest ([] : List Int) = .error .indexError := by
  refine ⟨?_, rfl⟩
  simp [get_latest, List.getLast?_concat]

/-- Claim C5 counterexample: on an empty payload (so any tag is absent)
`extract_numbers` does not return an empty sequence — `facts[taxonomy]`
raises `KeyError`. -/
theorem extract_numbers_empty_payload_raises :
    extract_numbers [] "Revenues" = .error .keyError := rfl

/-- Claim C5 as amended: a tag absent from the payload makes
`extract_numbers` raise `KeyError`; a tag that is present but holds an
empty fact list yields the empty sequence. -/
theorem extract_numbers_absent_tag_raises (facts : List (String × List Fact)) (tag : String)
    (h : facts.find? (fun p => p.1 == tag) = none) :
    extract_numbers facts tag = .error .keyError ∧
    (∀ t : String, extract_numbers [(t, [])] t = .ok []) := by
  refine ⟨?_, ?_⟩
  · simp [extract_numbers, h]
  · intro t
    simp [extract_numbers, extract_from_list]

/-- Witness for claim C5: the tag `'Revenues'` is absent from a payload
holding only `'Assets'`. -/
theorem extract_numbers_absent_tag_raises_witness :
    ([(("Assets" : String), ([] : List Fact))].find? (fun p => p.1 == "Revenues") = none) ∧
    extract_numbers [("Assets", [])] "Revenues" = .error .keyError :=
  ⟨by decide,
    (extract_numbers_absent_tag_raises [("Assets", [])] "Revenues" (by decide)).1⟩

/-- Claim C9 counterexample: the frame `'CY2021Q1'` matches the claimed
pattern (`CY`, digits, optional quarter suffix) yet the code's regex
`CY\d*$` rejects it, so the fact's value is NOT extracted. -/
theorem extract_numbers_quarter_frame_counterexample :
    spec_frame_pattern "CY2021Q1" = true ∧
    extract_numbers [("Revenues", [⟨"2021-03-31", 7, some "CY2021Q1"⟩])] "Revenues"
      = .ok [] := by decide

/-- Claim C9 as amended: a fact's value is extracted exactly when it
carries a frame matching `CY` followed by digits only (`CY\d*$`); frames
with a quarter suffix such as `'CY2021Q1'`, and facts without a frame,
are excluded. -/
theorem extract_numbers_annual_frames_only (tag : String) (l : List Fact) :
    extract_numbers [(tag, l)] tag = .ok ((l.filter included).map Fact.val) ∧
    (∀ ds : List Char, ds.all Char.isDigit = true →
        matches_cy (String.mk ('C' :: 'Y' :: ds)) = true) ∧
    matches_cy "CY2021Q1" = false ∧
    included ⟨"2021-03-31", 7, some "CY2021Q1"⟩ = false ∧
    included ⟨"2020-12-31", 9, none⟩ = false := by
  refine ⟨?_, ?_, by decide, by decide, by decide⟩
  · simp [extract_numbers, extract_from_list_eq_filter]
  · intro ds h
    show ('C' == 'C' && 'Y' == 'Y' && cy_tail ds) = true
    simp only [show ('C' == 'C') = true from rfl, show ('Y' == 'Y') = true from rfl,
      Bool.true_and]
    induction ds with
    | nil => rfl
    | cons c rest ih =>
      simp only [List.all_cons, Bool.and_eq_true] at h
      simp [cy_tail, h.1, ih h.2]

/-- Witness for claim C9 as amended, at the tag `'Revenues'` with one
annual, one quarterly and one frameless fact, and the digit tail `'2021'`. -/
theorem extract_numbers_annual_frames_only_witness :
    extract_numbers
        [("Revenues", [⟨"2021-12-31", 7, some "CY2021"⟩,
                       ⟨"2021-03-31", 8, some "CY2021Q1"⟩,
                       ⟨"2020-12-31", 9, none⟩])] "Revenues" = .ok [7] ∧
    (['2', '0', '2', '1'].all Char.isDigit = true ∧
      matches_cy (String.mk ('C' :: 'Y' :: ['2', '0', '2', '1'])) = true) := by
  refine ⟨?_, by decide, ?_⟩
  · have h := (extract_numbers_annual_frames_only "Revenues"
      [⟨"2021-12-31", 7, some "CY2021"⟩, ⟨"2021-03-31", 8, some "CY2021Q1"⟩,
       ⟨"2020-12-31", 9, none⟩]).1
    rw [h]
    decide
  · exact (extract_numbers_annual_frames_only "Revenues" []).2.1
      ['2', '0', '2', '1'] (by decide)

/-- Claim C10: extraction preserves payload order (it distributes over
concatenation of fact lists), and `get_latest` of an extraction ending in
an included fact returns that fact's value — the positionally last one,
regardless of the facts' dates. -/
theorem extract_order_latest_positional (l1 l2 : List Fact) (f : Fact)
    (h : included f = true) :
    extract_from_list (l1 ++ l2) = extract_from_list l1 ++ extract_from_list l2 ∧
    get_latest (extract_from_list (l1 ++ [f])) = .ok f.val := by
  constructor
  · simp [extract_from_list_eq_filter, List.filter_append]
  · have hf : (List.filter included (l1 ++ [f])).map Fact.val
        = (List.filter included l1).map Fact.val ++ [f.val] := by
      simp [List.filter_append, h]
    rw [extract_from_list_eq_filter, hf]
    simp [get_latest, List.getLast?_concat]

/-- Witness for claim C10: the positionally last included fact has the
OLDEST end-date, yet its value `9` is what `get_latest` returns. -/
theorem extract_order_latest_positional_witness :
    included ⟨"2019-12-31", 9, some "CY2019"⟩ = true ∧
    get_latest (extract_from_list
        ([⟨"2022-12-31", 5, some "CY2022"⟩] ++ [⟨"2019-12-31", 9, some "CY2019"⟩]))
      = .ok 9 :=
  ⟨by decide,
    (extract_order_latest_positional [⟨"2022-12-31", 5, some "CY2022"⟩] []
      ⟨"2019-12-31", 9, some "CY2019"⟩ (by decide)).2⟩

/-! ## `financialdatapy/stock.py`

`Stock._validate_country_code` runs
`re.search(r'\b[a-zA-Z]{3}\b', country_code).group().upper()` and turns a
`TypeError` (input `None`) or `AttributeError` (no match) into
`CountryCodeValidationFailed`.  `Stock._convert_symbol_to_code_in_krx`
returns the symbol unchanged unless the country code is `'KOR'`, in which
case an `int(symbol)` success returns the symbol and a `ValueError` falls
back to `CompanyCode.search_code`. -/

/-- The errors of `stock.py`: its own `CountryCodeValidationFailed`, and
the code-not-found failure of the company-code search. -/
inductive StockError where
  | countryCodeValidationFailed : StockError
  | codeNotFound : StockError
deriving DecidableEq, Repr

/-- Python's regex word character `\w` on the ASCII inputs in play:
letter, digit or underscore (the two `\b` in the pattern are boundaries
between word and non-word positions). -/
def isWordChar (c : Char) : Bool :=
  c.isAlpha || c.isDigit || c == '_'

/-- Whether a `\b` word boundary holds next to a letter of the candidate
token, given the adjacent character (`none` at either end of the string). -/
def atBoundary : Option Char → Bool
  | none => true
  | some c => !isWordChar c

/-- `re.search(r'\b[a-zA-Z]{3}\b', s)`: try each start position left to
right; at a position, match three letters flanked by word boundaries
(`prev` is the character before the window, `none` at the start). -/
def findAlpha3 (prev : Option Char) : List Char → Option (List Char)
  | x :: y :: z :: rest =>
    if atBoundary prev && x.isAlpha && y.isAlpha && z.isAlpha && atBoundary rest.head? then
      some [x, y, z]
    else
      findAlpha3 (some x) (y :: z :: rest)
  | _ => none

/-- `Stock._validate_country_code(country_code)`: the leftmost
boundary-delimited three-letter token, uppercased; `None` input
(`TypeError`) and a failed search (`AttributeError` on `.group()`) both
raise `CountryCodeValidationFailed`. -/
def validate_country_code (country_code : Option String) : Except StockError String :=
  match country_code with
  | none => .error .countryCodeValidationFailed
  | some s =>
    match findAlpha3 none s.toList with
    | some cs => .ok (str_upper (String.mk cs))
    | none => .error .countryCodeValidationFailed

/-- Python `int(symbol)` for `str` input, with `none` for `ValueError`:
optional surrounding whitespace, an optional sign, then at least one
digit.  (Underscore digit grouping of Python ≥ 3.6 is not modelled; no
symbol in play contains one.) -/
def int_of_string (s : String) : Option Int :=
  match (s.toList.dropWhile Char.isWhitespace).reverse.dropWhile Char.isWhitespace
      |>.reverse with
  | '+' :: rest =>
    if !rest.isEmpty && rest.all Char.isDigit then some (digitsVal rest) else none
  | '-' :: rest =>
    if !rest.isEmpty && rest.all Char.isDigit then some (-(digitsVal rest : Int)) else none
  | rest =>
    if !rest.isEmpty && rest.all Char.isDigit then some (digitsVal rest) else none

/-- Modelled from the spec: `CompanyCode.search_code` lives in
`financialdatapy/companycode.py`, which is not among the provided source
files; only its call site in `stock.py` is.  The spec says the resolver
"performs a name search against a pre-loaded code directory and returns
the matched code" and "fails with `CodeNotFoundError` if no match" — a
lookup in a name-to-code directory, here an association list. -/
def search_code (directory : List (String × String)) (name : String) :
    Except StockError String :=
  match directory.find? (fun p => p.1 == name) with
  | some p => .ok p.2
  | none => .error .codeNotFound

/-- `Stock._convert_symbol_to_code_in_krx(symbol, country_code)`:
non-`'KOR'` markets use the symbol as-is; for `'KOR'`, a symbol that
`int()` accepts is already a code and is returned unchanged, otherwise
the name search runs.  `directory` stands for the code list
`CompanyCode.search_code` queries. -/
def convert_symbol_to_code_in_krx (directory : List (String × String))
    (symbol country_code : String) : Except StockError String :=
  if country_code ≠ "KOR" then .ok symbol
  else
    match int_of_string symbol with
    | some _ => .ok symbol
    | none => search_code directory symbol

example : validate_country_code (some "  usa  ") = .ok "USA" := by decide
example : validate_country_code (some "USA2021")
    = .error .countryCodeValidationFailed := by decide
example : int_of_string " 005930 " = some 5930 := by decide
example : int_of_string "Samsung" = none := by decide
example : validate_country_code (some "abc def") = .ok "ABC" := by decide
example : validate_country_code (some "abcd usa") = .ok "USA" := by decide

/-- Claim C3 counterexample: `'USA2021'` contains the three-letter
alphabetic substring `'USA'`, yet validation fails — the `\b` after the
window sits between `'A'` and `'2'`, two word characters, so the regex
has no match. -/
theorem country_code_usa2021_counterexample :
    validate_country_code (some "USA2021") = .error .countryCodeValidationFailed := by
  decide

/-- The test `re.search` applies at one start position `i` of the scan
list `l`: three letters beginning at `i`, flanked by `\b` word
boundaries — the character before the window (`prev` of the whole scan
when `i = 0`) is not a word character or absent, and likewise the
character after the window. -/
def scanTokenAtPos (prev : Option Char) (l : List Char) (i : Nat) : Bool :=
  match l.drop i with
  | x :: y :: z :: rest =>
    atBoundary (if i == 0 then prev else l.get? (i - 1)) &&
      x.isAlpha && y.isAlpha && z.isAlpha && atBoundary rest.head?
  | _ => false

/-- A word-boundary-delimited three-letter alphabetic token starting at
position `i` of a string's character list: the positional reading of one
match of `\b[a-zA-Z]{3}\b`. -/
def tokenAtPos (l : List Char) (i : Nat) : Bool :=
  scanTokenAtPos none l i

/-- A position carrying a token leaves at least three characters. -/
theorem scanTokenAtPos_le_length (prev : Option Char) (l : List Char) (i : Nat)
    (h : scanTokenAtPos prev l i = true) : i + 3 ≤ l.length := by
  unfold scanTokenAtPos at h
  cases hd : l.drop i with
  | nil => rw [hd] at h; simp at h
  | cons a t =>
    cases t with
    | nil => rw [hd] at h; simp at h
    | cons b t2 =>
      cases t2 with
      | nil => rw [hd] at h; simp at h
      | cons c rest =>
        have hlen : (l.drop i).length = l.length - i := List.length_drop i l
        rw [hd] at hlen
        simp at hlen
        omega

/-- Moving the scan one character right shifts every candidate position
down by one, the skipped character becoming the boundary context. -/
theorem scanTokenAtPos_succ (prev : Option Char) (x : Char) (l : List Char) (i : Nat) :
    scanTokenAtPos prev (x :: l) (i + 1) = scanTokenAtPos (some x) l i := by
  unfold scanTokenAtPos
  have hd : (x :: l).drop (i + 1) = l.drop i := rfl
  rw [hd]
  cases hdrop : l.drop i with
  | nil => rfl
  | cons a t =>
    cases t with
    | nil => rfl
    | cons b t2 =>
      cases t2 with
      | nil => rfl
      | cons c rest =>
        have hb : (if (i + 1) == 0 then prev else (x :: l).get? (i + 1 - 1))
            = (if i == 0 then some x else l.get? (i - 1)) := by
          cases i with
          | zero => rfl
          | succ k => rfl
        rw [hb]

/-- The regex search succeeds at the leftmost matching position: if a
token sits at `i` and no earlier position carries one, the scan returns
the three characters at `i`. -/
theorem findAlpha3_eq_some (l : List Char) :
    ∀ (prev : Option Char) (i : Nat), scanTokenAtPos prev l i = true →
    (∀ j < i, scanTokenAtPos prev l j = false) →
    findAlpha3 prev l = some ((l.drop i).take 3) := by
  induction l with
  | nil =>
    intro prev i hi _
    have hlen := scanTokenAtPos_le_length prev [] i hi
    have : ([] : List Char).length = 0 := rfl
    omega
  | cons x l' ih =>
    intro prev i hi hmin
    cases l' with
    | nil =>
      have hlen := scanTokenAtPos_le_length prev [x] i hi
      have : ([x] : List Char).length = 1 := rfl
      omega
    | cons y l'' =>
      cases l'' with
      | nil =>
        have hlen := scanTokenAtPos_le_length prev [x, y] i hi
        have : ([x, y] : List Char).length = 2 := rfl
        omega
      | cons z rest =>
        cases i with
        | zero =>
          have hw : (atBoundary prev && x.isAlpha && y.isAlpha && z.isAlpha
              && atBoundary rest.head?) = true := hi
          simp [findAlpha3, hw]
        | succ k =>
          have hw : (atBoundary prev && x.isAlpha && y.isAlpha && z.isAlpha
              && atBoundary rest.head?) = false := hmin 0 (Nat.succ_pos k)
          have hstep : findAlpha3 prev (x :: y :: z :: rest)
              = findAlpha3 (some x) (y :: z :: rest) := by
            simp [findAlpha3, hw]
          rw [hstep]
          have hi2 : scanTokenAtPos (some x) (y :: z :: rest) k = true := by
            rw [← scanTokenAtPos_succ prev x (y :: z :: rest) k]
            exact hi
          have hmin2 : ∀ j < k, scanTokenAtPos (some x) (y :: z :: rest) j = false := by
            intro j hj
            rw [← scanTokenAtPos_succ prev x (y :: z :: rest) j]
            exact hmin (j + 1) (Nat.succ_lt_succ hj)
          rw [ih (some x) k hi2 hmin2]
          rfl

/-- The regex search fails exactly on inputs with no matching position. -/
theorem findAlpha3_eq_none (l : List Char) :
    ∀ prev : Option Char, (∀ j, scanTokenAtPos prev l j = false) →
    findAlpha3 prev l = none := by
  induction l with
  | nil => intro prev _; rfl
  | cons x l' ih =>
    intro prev h
    cases l' with
    | nil => rfl
    | cons y l'' =>
      cases l'' with
      | nil => rfl
      | cons z rest =>
        have hw : (atBoundary prev && x.isAlpha && y.isAlpha && z.isAlpha
            && atBoundary rest.head?) = false := h 0
        have hstep : findAlpha3 prev (x :: y :: z :: rest)
            = findAlpha3 (some x) (y :: z :: rest) := by
          simp [findAlpha3, hw]
        rw [hstep]
        refine ih (some x) (fun j => ?_)
        rw [← scanTokenAtPos_succ prev x (y :: z :: rest) j]
        exact h (j + 1)

/-- Claim C3 as amended: validation returns, uppercased, the leftmost
three-letter alphabetic token delimited by word boundaries — if a token
sits at position `i` and no earlier position carries one, the result is
exactly the three characters at `i`, uppercased; when no position of the
string carries such a token, and for input `None`, validation fails with
`CountryCodeValidationFailed`. -/
theorem country_code_boundary_token (s : String) (i : Nat) :
    (tokenAtPos s.toList i = true → (∀ j < i, tokenAtPos s.toList j = false) →
      validate_country_code (some s)
        = .ok (str_upper (String.mk ((s.toList.drop i).take 3)))) ∧
    ((∀ j, tokenAtPos s.toList j = false) →
      validate_country_code (some s) = .error .countryCodeValidationFailed) ∧
    validate_country_code none = .error .countryCodeValidationFailed := by
  refine ⟨?_, ?_, rfl⟩
  · intro hi hmin
    have hf := findAlpha3_eq_some s.toList none i hi hmin
    show (match findAlpha3 none s.toList with
      | some cs => Except.ok (str_upper (String.mk cs))
      | none => Except.error StockError.countryCodeValidationFailed)
      = .ok (str_upper (String.mk ((s.toList.drop i).take 3)))
    rw [hf]
  · intro hall
    have hf := findAlpha3_eq_none s.toList none hall
    show (match findAlpha3 none s.toList with
      | some cs => Except.ok (str_upper (String.mk cs))
      | none => Except.error StockError.countryCodeValidationFailed)
      = .error .countryCodeValidationFailed
    rw [hf]

/-- Witness for claim C3 as amended: `'  usa  '` has its token at
position 2 and none earlier, giving `'USA'`; `'12'` has a token at no
position, so it fails. -/
theorem country_code_boundary_token_witness :
    tokenAtPos ("  usa  " : String).toList 2 = true ∧
    validate_country_code (some "  usa  ")
      = .ok (str_upper (String.mk ((("  usa  " : String).toList.drop 2).take 3))) ∧
    str_upper (String.mk ((("  usa  " : String).toList.drop 2).take 3)) = "USA" ∧
    validate_country_code (some "12") = .error .countryCodeValidationFailed := by
  refine ⟨by decide, ?_, by decide, ?_⟩
  · exact (country_code_boundary_token "  usa  " 2).1 (by decide) (by decide)
  · refine (country_code_boundary_token "12" 0).2.1 (fun j => ?_)
    cases htp : tokenAtPos ("12" : String).toList j with
    | false => rfl
    | true =>
      have hlen := scanTokenAtPos_le_length none (("12" : String).toList) j htp
      have h2 : (("12" : String).toList).length = 2 := rfl
      omega

/-- Claim C8: markets other than `'KOR'` use the symbol unchanged; for
`'KOR'` an integer-parsing symbol is returned as-is, and otherwise the
name search returns the directory's matched code, or fails with the
code-not-found error when no entry matches. -/
theorem krx_symbol_resolution (directory : List (String × String))
    (symbol country_code : String) (pr : String × String) :
    (country_code ≠ "KOR" →
      convert_symbol_to_code_in_krx directory symbol country_code = .ok symbol) ∧
    (country_code = "KOR" → (int_of_string symbol).isSome = true →
      convert_symbol_to_code_in_krx directory symbol country_code = .ok symbol) ∧
    (country_code = "KOR" → int_of_string symbol = none →
      directory.find? (fun p => p.1 == symbol) = some pr →
      convert_symbol_to_code_in_krx directory symbol country_code = .ok pr.2) ∧
    (country_code = "KOR" → int_of_string symbol = none →
      directory.find? (fun p => p.1 == symbol) = none →
      convert_symbol_to_code_in_krx directory symbol country_code
        = .error .codeNotFound) := by
  refine ⟨?_, ?_, ?_, ?_⟩
  · intro h
    simp [convert_symbol_to_code_in_krx, h]
  · intro h hint
    rcases Option.isSome_iff_exists.mp hint with ⟨v, hv⟩
    simp [convert_symbol_to_code_in_krx, h, hv]
  · intro h hint hfind
    simp [convert_symbol_to_code_in_krx, h, hint, search_code, hfind]
  · intro h hint hfind
    simp [convert_symbol_to_code_in_krx, h, hint, search_code, hfind]

/-- Witness for claim C8: a United-States ticker passes through; a
numeric Korean symbol passes through; a Korean company name resolves via
the directory; an unknown name fails. -/
theorem krx_symbol_resolution_witness :
    convert_symbol_to_code_in_krx [("Samsung", "005930")] "AAPL" "USA" = .ok "AAPL" ∧
    convert_symbol_to_code_in_krx [("Samsung", "005930")] "005930" "KOR" = .ok "005930" ∧
    convert_symbol_to_code_in_krx [("Samsung", "005930")] "Samsung" "KOR" = .ok "005930" ∧
    convert_symbol_to_code_in_krx [("Samsung", "005930")] "LG" "KOR"
      = .error .codeNotFound :=
  ⟨(krx_symbol_resolution [("Samsung", "005930")] "AAPL" "USA" ("", "")).1
      (by decide),
    (krx_symbol_resolution [("Samsung", "005930")] "005930" "KOR" ("", "")).2.1
      rfl (by decide),
    (krx_symbol_resolution [("Samsung", "005930")] "Samsung" "KOR"
        ("Samsung", "005930")).2.2.1 rfl (by decide) (by decide),
    (krx_symbol_resolution [("Samsung", "005930")] "LG" "KOR" ("", "")).2.2.2
      rfl (by decide) (by decide)⟩

end StockData
